import Mathlib

/-!
Shallow embedding of `zmq/green/core.py` (the gevent green `_Socket` adapter of
pyzmq), and proofs about its readiness-synchronization behaviour.

Modelling conventions:
- The two `AsyncResult` gates (`__readable`, `__writable`) are modelled by their
  `ready()` bit: `true` means the gate is open (a `wait` would return at once),
  `false` means some greenlet has reset it and is waiting for a resync.
- The outcomes of the underlying non-blocking `super().send` / `super().recv`
  attempts are supplied by an oracle list (`LowResult`): either a successful
  message or a `ZMQError` with a concrete `errno`.
- The outcome of a single bounded `AsyncResult.get` under the watchdog
  `gevent.Timeout` is supplied by a `WaitOutcome` oracle: the gate was signaled,
  the watchdog's own timeout fired, or a foreign `gevent.Timeout` was raised.
- Every operation additionally returns a trace of observable events (`Ev`):
  underlying attempts, gate waits, `__state_changed` invocations, warnings and
  underlying option reads/writes.  Counting `Ev.notify` in a trace counts the
  `__state_changed` invocations of the run.
- The live `select([fd],[fd],[],0)` bits queried inside `__state_changed` are
  passed as explicit boolean parameters `liveR`, `liveW`.
- The class attributes keep their source defaults: `_gevent_bug_timeout = 11.6`
  (nonzero, so the watchdog is always armed) and `_debug_gevent = False` (the
  diagnostic branch never touches `getsockopt(EVENTS)`).
-/

namespace GreenZmq

/-- Value of `zmq.EAGAIN` (errno 11 on Linux). -/
def EAGAIN : Nat := 11

/-- Value of `zmq.NOBLOCK` (also known as `DONTWAIT`). -/
def NOBLOCK : Nat := 1

/-- Value of `zmq.SNDMORE`. -/
def SNDMORE : Nat := 2

/-- Value of `zmq.EVENTS`. -/
def EVENTS : Nat := 15

/-- Value of `zmq.SUBSCRIBE`. -/
def SUBSCRIBE : Nat := 6

/-- Value of `zmq.UNSUBSCRIBE`. -/
def UNSUBSCRIBE : Nat := 7

/-- Value of `zmq.RCVTIMEO`. -/
def RCVTIMEO : Nat := 27

/-- Value of `zmq.SNDTIMEO`. -/
def SNDTIMEO : Nat := 28

/-- Outcome of one underlying non-blocking `super().send` / `super().recv`
attempt: either a message (modelled as a `Nat`) or a raised `zmq.ZMQError`
carrying its `errno`.  `errno = EAGAIN` is the would-block indicator. -/
inductive LowResult where
  | ok (msg : Nat)
  | err (errno : Nat)
deriving DecidableEq, Repr

/-- Errors that can propagate out of the green socket methods:
a `zmq.ZMQError` with its errno, a foreign `gevent.Timeout` (one that is not
the watchdog's own), or an `AssertionError` from the single-waiter assert. -/
inductive Err where
  | zmq (errno : Nat)
  | timeout
  | assertion
deriving DecidableEq, Repr

/-- Outcome of one bounded `AsyncResult.get(block=True)` call guarded by the
watchdog `gevent.Timeout` inside `_wait_write` / `_wait_read`. -/
inductive WaitOutcome where
  | signaled
  | ownTimeout
  | foreignTimeout
deriving DecidableEq, Repr

/-- Observable events of a run. `notify` records one invocation of
`__state_changed` (a resync notification); `gateWaitW` / `gateWaitR` record one
entry into `_wait_write` / `_wait_read`; `attemptSend` / `attemptRecv` record
one underlying non-blocking attempt; `warnTimeo` records the `UserWarning`
about TIMEO options; `readOpt` / `applyOpt` record the underlying
`super().get` / `super().set` calls. -/
inductive Ev where
  | attemptSend
  | attemptRecv
  | gateWaitW
  | gateWaitR
  | notify
  | warnTimeo
  | readOpt (opt : Nat)
  | applyOpt (opt : Nat) (val : Int)
deriving DecidableEq, Repr

/-- State of a green `_Socket`.  `readable` / `writable` are the `ready()` bits
of the two `AsyncResult` gates; `state_event` records whether the readiness
watch (`self._state_event`) is currently registered. -/
structure Socket where
  closed : Bool
  readable : Bool
  writable : Bool
  state_event : Bool
  in_send_multipart : Bool
  in_recv_multipart : Bool
deriving DecidableEq, Repr

/-- Embeds `_Socket.__cleanup_events`: stop and drop the state watch if
present, then set both gates so any waiting greenlet resumes. -/
def cleanup_events (s : Socket) : Socket :=
  { s with state_event := false, writable := true, readable := true }

/-- Embeds `_Socket.__readable_detected`, the callback registered on the
readiness watch in `__setup_events` (`self._state_event.start(self.__readable_detected)`):
if the socket is closed, tear down and return; otherwise set the readable
gate. -/
def readable_detected (s : Socket) : Socket :=
  if s.closed then cleanup_events s else { s with readable := true }

/-- The readiness-watch edge callback as registered in `__setup_events`
(line 103 of the source): it is `__readable_detected`. -/
def edge_callback (s : Socket) : Socket := readable_detected s

/-- Embeds `_Socket.__state_changed`: if the socket is closed, tear down and
return; otherwise query the live read/write bits with
`select([fd], [fd], [], timeout=0)` (passed here as `liveR`, `liveW`) and set
whichever gates are live. -/
def state_changed (s : Socket) (liveR liveW : Bool) : Socket :=
  if s.closed then cleanup_events s
  else
    let s1 := if liveR then { s with readable := true } else s
    if liveW then { s1 with writable := true } else s1

/-- Embeds `_Socket.close`.  The superclass part is Modelled from the spec:
`zmq.Socket.close` (repository code not under src/) marks the socket closed;
the green subclass then runs `__cleanup_events`. -/
def close (s : Socket) : Socket :=
  cleanup_events { s with closed := true }

/-- Direction selector for the send/recv symmetric code paths. -/
inductive Dir where
  | snd
  | rcv
deriving DecidableEq, Repr

/-- The `ready()` bit of the gate for a direction (`__writable` for send,
`__readable` for recv). -/
def gateReady : Dir → Socket → Bool
  | .snd, s => s.writable
  | .rcv, s => s.readable

/-- Write the gate bit for a direction. -/
def setGate : Dir → Socket → Bool → Socket
  | .snd, s, b => { s with writable := b }
  | .rcv, s, b => { s with readable := b }

/-- The batch-suppression flag for a direction (`__in_send_multipart` for
send, `__in_recv_multipart` for recv). -/
def inBatch : Dir → Socket → Bool
  | .snd, s => s.in_send_multipart
  | .rcv, s => s.in_recv_multipart

/-- Trace event for one underlying attempt in a direction. -/
def attemptEv : Dir → Ev
  | .snd => .attemptSend
  | .rcv => .attemptRecv

/-- Trace event for one gate wait in a direction. -/
def gateEv : Dir → Ev
  | .snd => .gateWaitW
  | .rcv => .gateWaitR

/-- Embeds `_Socket._wait_write` / `_Socket._wait_read` (they differ only in
direction).  First the single-waiter assert on `ready()`; then the gate is
reset to a fresh `AsyncResult`; then the bounded `get` runs under the watchdog
`gevent.Timeout` with the source's nonzero default bound: a signaled gate and
the watchdog's own timeout both return normally, a foreign `gevent.Timeout`
is re-raised; in every case the `finally` block sets the gate again. -/
def wait_event (d : Dir) (s : Socket) (w : WaitOutcome) : Except Err Unit × Socket :=
  if gateReady d s then
    let s1 := setGate d s false
    match w with
    | .foreignTimeout => (.error .timeout, setGate d s1 true)
    | .ownTimeout => (.ok (), setGate d s1 true)
    | .signaled => (.ok (), setGate d s1 true)
  else (.error .assertion, s)

/-- Embeds `_Socket._wait_write`, with the wait outcome supplied by the oracle. -/
def _wait_write (s : Socket) (w : WaitOutcome) : Except Err Unit × Socket :=
  wait_event .snd s w

/-- Embeds `_Socket._wait_read`, with the wait outcome supplied by the oracle. -/
def _wait_read (s : Socket) (w : WaitOutcome) : Except Err Unit × Socket :=
  wait_event .rcv s w

/-- The `if not self.__in_send_multipart: self.__state_changed()` pattern
(and its recv twin): invoke the resync notification unless the batch flag of
the direction is set.  Returns the new state and the emitted trace. -/
def notifyUnlessBatch (d : Dir) (s : Socket) (liveR liveW : Bool) : Socket × List Ev :=
  if inBatch d s then (s, []) else (state_changed s liveR liveW, [.notify])

/-- Embeds the blocking retry loop shared by `_Socket.send` and `_Socket.recv`
(the `while True` after `flags |= zmq.NOBLOCK`): attempt the underlying call;
on success notify (unless batched) and return; on a `ZMQError` with
`errno != EAGAIN` notify (unless batched) and re-raise; on `EAGAIN` fall
through to the gate wait and loop.  `attempts` is the oracle of underlying
outcomes and `waits` the oracle of gate-wait outcomes; the result is `none`
when an oracle is exhausted (the loop would keep running). -/
def ioLoop (d : Dir) (liveR liveW : Bool) :
    Socket → List LowResult → List WaitOutcome →
    Option (Except Err Nat) × Socket × List Ev
  | s, [], _ => (none, s, [])
  | s, .ok m :: _, _ =>
      let p := notifyUnlessBatch d s liveR liveW
      (some (.ok m), p.1, attemptEv d :: p.2)
  | s, .err e :: rest, waits =>
      if e = EAGAIN then
        match waits with
        | [] => (none, s, [attemptEv d])
        | w :: ws =>
          match wait_event d s w with
          | (.ok _, s1) =>
            let r := ioLoop d liveR liveW s1 rest ws
            (r.1, r.2.1, attemptEv d :: gateEv d :: r.2.2)
          | (.error er, s1) => (some (.error er), s1, [attemptEv d, gateEv d])
      else
        let p := notifyUnlessBatch d s liveR liveW
        (some (.error (.zmq e)), p.1, attemptEv d :: p.2)

/-- Embeds `_Socket.send`: if `zmq.NOBLOCK` is in `flags`, one underlying
attempt whose result (value or raised error) passes through the `finally`
block that notifies unless batched; otherwise the blocking retry loop. -/
def send (s : Socket) (flags : Nat) (liveR liveW : Bool)
    (attempts : List LowResult) (waits : List WaitOutcome) :
    Option (Except Err Nat) × Socket × List Ev :=
  if flags &&& NOBLOCK ≠ 0 then
    match attempts with
    | [] => (none, s, [])
    | a :: _ =>
      let p := notifyUnlessBatch .snd s liveR liveW
      match a with
      | .ok m => (some (.ok m), p.1, .attemptSend :: p.2)
      | .err e => (some (.error (.zmq e)), p.1, .attemptSend :: p.2)
  else ioLoop .snd liveR liveW s attempts waits

/-- Embeds `_Socket.recv`: same shape as `send` in the receive direction. -/
def recv (s : Socket) (flags : Nat) (liveR liveW : Bool)
    (attempts : List LowResult) (waits : List WaitOutcome) :
    Option (Except Err Nat) × Socket × List Ev :=
  if flags &&& NOBLOCK ≠ 0 then
    match attempts with
    | [] => (none, s, [])
    | a :: _ =>
      let p := notifyUnlessBatch .rcv s liveR liveW
      match a with
      | .ok m => (some (.ok m), p.1, .attemptRecv :: p.2)
      | .err e => (some (.error (.zmq e)), p.1, .attemptRecv :: p.2)
  else ioLoop .rcv liveR liveW s attempts waits

/-- Modelled from the spec: the underlying batch primitive
`zmq.Socket.send_multipart` (repository code not under src/) is, per the spec,
a wrapper around a sequence of adapter calls — one frame sent per call, the
non-final frames with `SNDMORE`, stopping at the first failure.  Each frame
consumes its own pair of oracles. -/
def send_frames (liveR liveW : Bool) :
    Socket → List Nat → List (List LowResult × List WaitOutcome) →
    Option (Except Err Unit) × Socket × List Ev
  | s, [], _ => (some (.ok ()), s, [])
  | s, _ :: _, [] => (none, s, [])
  | s, _f :: fs, o :: os =>
      match send s (if fs.isEmpty then 0 else SNDMORE) liveR liveW o.1 o.2 with
      | (none, s1, tr) => (none, s1, tr)
      | (some (.error e), s1, tr) => (some (.error e), s1, tr)
      | (some (.ok _), s1, tr) =>
          let r := send_frames liveR liveW s1 fs os
          (r.1, r.2.1, tr ++ r.2.2)

/-- Embeds `_Socket.send_multipart`: set `__in_send_multipart`, run the
underlying batch, and in the `finally` block clear the flag and invoke
`__state_changed` once — on success and on failure alike. -/
def send_multipart (s : Socket) (liveR liveW : Bool) (frames : List Nat)
    (oracles : List (List LowResult × List WaitOutcome)) :
    Option (Except Err Unit) × Socket × List Ev :=
  let r := send_frames liveR liveW { s with in_send_multipart := true } frames oracles
  let s2 := { r.2.1 with in_send_multipart := false }
  (r.1, state_changed s2 liveR liveW, r.2.2 ++ [.notify])

/-- Modelled from the spec: the underlying batch primitive
`zmq.Socket.recv_multipart` (repository code not under src/) is, per the spec,
a wrapper around a sequence of adapter receive calls — one frame per call,
stopping at the first failure; the oracle list length is the number of frames
the underlying message has. -/
def recv_frames (liveR liveW : Bool) :
    Socket → List (List LowResult × List WaitOutcome) →
    Option (Except Err (List Nat)) × Socket × List Ev
  | s, [] => (some (.ok []), s, [])
  | s, o :: os =>
      match recv s 0 liveR liveW o.1 o.2 with
      | (none, s1, tr) => (none, s1, tr)
      | (some (.error e), s1, tr) => (some (.error e), s1, tr)
      | (some (.ok m), s1, tr) =>
          let r := recv_frames liveR liveW s1 os
          match r.1 with
          | none => (none, r.2.1, tr ++ r.2.2)
          | some (.error e) => (some (.error e), r.2.1, tr ++ r.2.2)
          | some (.ok ms) => (some (.ok (m :: ms)), r.2.1, tr ++ r.2.2)

/-- Embeds `_Socket.recv_multipart`: set `__in_recv_multipart`, run the
underlying batch, and in the `finally` block clear the flag and invoke
`__state_changed` once — on success and on failure alike. -/
def recv_multipart (s : Socket) (liveR liveW : Bool)
    (oracles : List (List LowResult × List WaitOutcome)) :
    Option (Except Err (List Nat)) × Socket × List Ev :=
  let r := recv_frames liveR liveW { s with in_recv_multipart := true } oracles
  let s2 := { r.2.1 with in_recv_multipart := false }
  (r.1, state_changed s2 liveR liveW, r.2.2 ++ [.notify])

/-- Embeds the module-level `TIMEOS` tuple: `(zmq.RCVTIMEO, zmq.SNDTIMEO)`
when the binding defines `RCVTIMEO` (`hasattr(zmq, 'RCVTIMEO')`, passed as
`hasTimeo`), empty otherwise. -/
def TIMEOS (hasTimeo : Bool) : List Nat :=
  if hasTimeo then [RCVTIMEO, SNDTIMEO] else []

/-- Embeds `_Socket.get`: warn if the option is a TIMEO, read the value from
the underlying socket (`store`, Modelled from the spec: the underlying
readiness-option accessor `zmq.Socket.get` is repository code not under src/),
and invoke `__state_changed` exactly when the option is `zmq.EVENTS`. -/
def get (s : Socket) (hasTimeo : Bool) (store : Nat → Int) (opt : Nat)
    (liveR liveW : Bool) : Int × Socket × List Ev :=
  let warnEvs : List Ev := if opt ∈ TIMEOS hasTimeo then [.warnTimeo] else []
  let optval := store opt
  if opt = EVENTS then
    (optval, state_changed s liveR liveW, warnEvs ++ [.readOpt opt, .notify])
  else
    (optval, s, warnEvs ++ [.readOpt opt])

/-- Embeds `_Socket.set`: warn if the option is a TIMEO, forward the value to
the underlying socket (the `applyOpt` trace event; Modelled from the spec:
`zmq.Socket.set` is repository code not under src/), and invoke
`__state_changed` exactly when the option is `zmq.SUBSCRIBE` or
`zmq.UNSUBSCRIBE`. -/
def set (s : Socket) (hasTimeo : Bool) (opt : Nat) (val : Int)
    (liveR liveW : Bool) : Socket × List Ev :=
  let warnEvs : List Ev := if opt ∈ TIMEOS hasTimeo then [.warnTimeo] else []
  if opt = SUBSCRIBE ∨ opt = UNSUBSCRIBE then
    (state_changed s liveR liveW, warnEvs ++ [.applyOpt opt val, .notify])
  else
    (s, warnEvs ++ [.applyOpt opt val])

/-- True when the retry loop completed at an attempt exit — a successful
message or a raised `ZMQError` — i.e. the exits where `send`/`recv` run the
resync notification. -/
def attemptExit : Option (Except Err Nat) → Bool
  | some (Except.ok _) => true
  | some (Except.error (Err.zmq _)) => true
  | _ => false

/-- A socket whose gates are both open (fresh, ready state). -/
def readySock : Socket := ⟨false, true, true, true, false, false⟩

/-- An open socket whose gates are both reset (a waiter is parked on each). -/
def unreadySock : Socket := ⟨false, false, false, true, false, false⟩

/-- A closed socket. -/
def closedSock : Socket := ⟨true, false, false, true, false, false⟩

/-- A constant underlying option store used as a concrete witness input. -/
def constStore : Nat → Int := fun _ => 42

lemma attemptEv_ne_notify (d : Dir) : attemptEv d ≠ Ev.notify := by
  cases d <;> decide

lemma gateEv_ne_notify (d : Dir) : gateEv d ≠ Ev.notify := by
  cases d <;> decide

lemma count_notify_cons_attempt (d : Dir) (tr : List Ev) :
    (attemptEv d :: tr).count Ev.notify = tr.count Ev.notify := by
  cases d <;> simp [List.count_cons, attemptEv]

lemma count_notify_cons_gate (d : Dir) (tr : List Ev) :
    (gateEv d :: tr).count Ev.notify = tr.count Ev.notify := by
  cases d <;> simp [List.count_cons, gateEv]

lemma getLast?_cons_of_ne_nil {α : Type} (a : α) (l : List α) (h : l ≠ []) :
    (a :: l).getLast? = l.getLast? := by
  cases l with
  | nil => exact absurd rfl h
  | cons b m => simp [List.getLast?_cons_cons]

lemma inBatch_setGate (d d2 : Dir) (s : Socket) (b : Bool) :
    inBatch d (setGate d2 s b) = inBatch d s := by
  cases d <;> cases d2 <;> simp [inBatch, setGate]

lemma wait_event_state (d : Dir) (s : Socket) (w : WaitOutcome) :
    (wait_event d s w).2 = if gateReady d s then setGate d (setGate d s false) true else s := by
  unfold wait_event
  split
  · cases w <;> rfl
  · rfl

lemma inBatch_wait_event (d d2 : Dir) (s : Socket) (w : WaitOutcome) :
    inBatch d (wait_event d2 s w).2 = inBatch d s := by
  rw [wait_event_state]
  split
  · simp [inBatch_setGate]
  · rfl

lemma wait_event_error_cases (d : Dir) (s : Socket) (w : WaitOutcome) (er : Err) :
    (wait_event d s w).1 = Except.error er → er = Err.timeout ∨ er = Err.assertion := by
  unfold wait_event
  split
  · cases w with
    | foreignTimeout => intro h; simp at h; exact Or.inl h.symm
    | ownTimeout => intro h; simp at h
    | signaled => intro h; simp at h
  · intro h; simp at h; exact Or.inr h.symm

lemma wait_event_no_foreign (d : Dir) (s : Socket) (w : WaitOutcome) (er : Err)
    (hw : w ≠ WaitOutcome.foreignTimeout) :
    (wait_event d s w).1 = Except.error er → er = Err.assertion := by
  unfold wait_event
  split
  · cases w with
    | foreignTimeout => exact absurd rfl hw
    | ownTimeout => intro h; simp at h
    | signaled => intro h; simp at h
  · intro h; simp at h; exact h.symm

lemma ioLoop_notify (d : Dir) (liveR liveW : Bool) (attempts : List LowResult) :
    ∀ (s : Socket) (waits : List WaitOutcome), inBatch d s = false →
      ((ioLoop d liveR liveW s attempts waits).2.2.count Ev.notify
          = if attemptExit (ioLoop d liveR liveW s attempts waits).1 then 1 else 0) ∧
      (attemptExit (ioLoop d liveR liveW s attempts waits).1 = true →
          (ioLoop d liveR liveW s attempts waits).2.2.getLast? = some Ev.notify) := by
  induction attempts with
  | nil =>
    intro s waits hb
    simp [ioLoop, attemptExit]
  | cons a rest ih =>
    intro s waits hb
    cases a with
    | ok m =>
      refine ⟨?_, fun _ => ?_⟩ <;>
        simp [ioLoop, notifyUnlessBatch, hb, attemptExit, count_notify_cons_attempt,
          List.getLast?_cons_cons]
    | err e =>
      by_cases he : e = EAGAIN
      · subst he
        cases waits with
        | nil =>
          refine ⟨?_, fun hex => ?_⟩
          · simp [ioLoop, attemptExit, count_notify_cons_attempt]
          · simp [ioLoop, attemptExit] at hex
        | cons w ws =>
          rcases hwe : wait_event d s w with ⟨res, s1⟩
          cases res with
          | ok u =>
            have hb1 : inBatch d s1 = false := by
              have hper := inBatch_wait_event d d s w
              rw [hwe] at hper
              simp at hper
              exact hper.trans hb
            have IH := ih s1 ws hb1
            have hstep : ioLoop d liveR liveW s (LowResult.err EAGAIN :: rest) (w :: ws)
                = ((ioLoop d liveR liveW s1 rest ws).1, (ioLoop d liveR liveW s1 rest ws).2.1,
                   attemptEv d :: gateEv d :: (ioLoop d liveR liveW s1 rest ws).2.2) := by
              simp [ioLoop, hwe]
            rw [hstep]
            refine ⟨?_, fun hex => ?_⟩
            · rw [count_notify_cons_attempt, count_notify_cons_gate]
              exact IH.1
            · have h2 := IH.2 hex
              have hne : (ioLoop d liveR liveW s1 rest ws).2.2 ≠ [] := by
                intro hnil
                have h1 := IH.1
                rw [hnil, hex] at h1
                simp at h1
              rw [List.getLast?_cons_cons, getLast?_cons_of_ne_nil _ _ hne]
              exact h2
          | error er =>
            have her := wait_event_error_cases d s w er (by rw [hwe])
            refine ⟨?_, fun hex => ?_⟩
            · simp only [ioLoop, hwe]
              rcases her with h | h <;> subst h <;>
                simp [attemptExit, count_notify_cons_attempt, count_notify_cons_gate]
            · simp only [ioLoop, hwe] at hex
              rcases her with h | h <;> subst h <;> simp [attemptExit] at hex
      · refine ⟨?_, fun _ => ?_⟩ <;>
          simp [ioLoop, he, notifyUnlessBatch, hb, attemptExit, count_notify_cons_attempt,
            List.getLast?_cons_cons]

lemma gateReady_setGate (d : Dir) (s : Socket) (b : Bool) :
    gateReady d (setGate d s b) = b := by
  cases d <;> simp [gateReady, setGate]

lemma ioLoop_batch (d : Dir) (liveR liveW : Bool) (attempts : List LowResult) :
    ∀ (s : Socket) (waits : List WaitOutcome), inBatch d s = true →
      (ioLoop d liveR liveW s attempts waits).2.2.count Ev.notify = 0 ∧
      inBatch d (ioLoop d liveR liveW s attempts waits).2.1 = true := by
  induction attempts with
  | nil =>
    intro s waits hb
    simp [ioLoop, hb]
  | cons a rest ih =>
    intro s waits hb
    cases a with
    | ok m =>
      simp [ioLoop, notifyUnlessBatch, hb, count_notify_cons_attempt]
    | err e =>
      by_cases he : e = EAGAIN
      · subst he
        cases waits with
        | nil => simp [ioLoop, hb, count_notify_cons_attempt]
        | cons w ws =>
          rcases hwe : wait_event d s w with ⟨res, s1⟩
          have hb1 : inBatch d s1 = true := by
            have hper := inBatch_wait_event d d s w
            rw [hwe] at hper
            simp at hper
            exact hper.trans hb
          cases res with
          | ok u =>
            have IH := ih s1 ws hb1
            have hstep : ioLoop d liveR liveW s (LowResult.err EAGAIN :: rest) (w :: ws)
                = ((ioLoop d liveR liveW s1 rest ws).1, (ioLoop d liveR liveW s1 rest ws).2.1,
                   attemptEv d :: gateEv d :: (ioLoop d liveR liveW s1 rest ws).2.2) := by
              simp [ioLoop, hwe]
            rw [hstep]
            refine ⟨?_, IH.2⟩
            rw [count_notify_cons_attempt, count_notify_cons_gate]
            exact IH.1
          | error er =>
            have hstep : ioLoop d liveR liveW s (LowResult.err EAGAIN :: rest) (w :: ws)
                = (some (.error er), s1, [attemptEv d, gateEv d]) := by
              simp [ioLoop, hwe]
            rw [hstep]
            refine ⟨?_, hb1⟩
            rw [count_notify_cons_attempt, count_notify_cons_gate]
            rfl
      · simp [ioLoop, he, notifyUnlessBatch, hb, count_notify_cons_attempt]

lemma ioLoop_no_watchdog_timeout (d : Dir) (liveR liveW : Bool) (attempts : List LowResult) :
    ∀ (s : Socket) (waits : List WaitOutcome),
      (∀ w ∈ waits, w ≠ WaitOutcome.foreignTimeout) →
      ∀ r, (ioLoop d liveR liveW s attempts waits).1 = some r →
        r ≠ Except.error Err.timeout := by
  induction attempts with
  | nil =>
    intro s waits _ r hr
    simp [ioLoop] at hr
  | cons a rest ih =>
    intro s waits hw r hr
    cases a with
    | ok m =>
      simp [ioLoop, notifyUnlessBatch] at hr
      rw [← hr]
      intro hcon
      cases hcon
    | err e =>
      by_cases he : e = EAGAIN
      · subst he
        cases waits with
        | nil => simp [ioLoop] at hr
        | cons w ws =>
          rcases hwe : wait_event d s w with ⟨res, s1⟩
          cases res with
          | ok u =>
            have hstep : ioLoop d liveR liveW s (LowResult.err EAGAIN :: rest) (w :: ws)
                = ((ioLoop d liveR liveW s1 rest ws).1, (ioLoop d liveR liveW s1 rest ws).2.1,
                   attemptEv d :: gateEv d :: (ioLoop d liveR liveW s1 rest ws).2.2) := by
              simp [ioLoop, hwe]
            rw [hstep] at hr
            exact ih s1 ws (fun x hx => hw x (List.mem_cons_of_mem w hx)) r hr
          | error er =>
            have her : er = Err.assertion :=
              wait_event_no_foreign d s w er (hw w (List.mem_cons_self w ws)) (by rw [hwe])
            have hstep : ioLoop d liveR liveW s (LowResult.err EAGAIN :: rest) (w :: ws)
                = (some (.error er), s1, [attemptEv d, gateEv d]) := by
              simp [ioLoop, hwe]
            rw [hstep] at hr
            simp at hr
            rw [← hr, her]
            intro hcon
            cases hcon
      · simp [ioLoop, he, notifyUnlessBatch] at hr
        rw [← hr]
        intro hcon
        cases hcon

lemma send_eq_ioLoop (s : Socket) (flags : Nat) (liveR liveW : Bool)
    (attempts : List LowResult) (waits : List WaitOutcome) (h : flags &&& NOBLOCK = 0) :
    send s flags liveR liveW attempts waits = ioLoop .snd liveR liveW s attempts waits := by
  simp [send, h]

lemma recv_eq_ioLoop (s : Socket) (flags : Nat) (liveR liveW : Bool)
    (attempts : List LowResult) (waits : List WaitOutcome) (h : flags &&& NOBLOCK = 0) :
    recv s flags liveR liveW attempts waits = ioLoop .rcv liveR liveW s attempts waits := by
  simp [recv, h]

lemma send_frames_batch (liveR liveW : Bool) (frames : List Nat) :
    ∀ (s : Socket) (oracles : List (List LowResult × List WaitOutcome)),
      s.in_send_multipart = true →
      (send_frames liveR liveW s frames oracles).2.2.count Ev.notify = 0 ∧
      (send_frames liveR liveW s frames oracles).2.1.in_send_multipart = true := by
  induction frames with
  | nil =>
    intro s oracles hb
    simp [send_frames, hb]
  | cons f fs ih =>
    intro s oracles hb
    cases oracles with
    | nil => simp [send_frames, hb]
    | cons o os =>
      have hflag : (if fs.isEmpty then 0 else SNDMORE) &&& NOBLOCK = 0 := by
        by_cases hfs : fs.isEmpty <;> simp [hfs, SNDMORE, NOBLOCK]
      have hio := send_eq_ioLoop s (if fs.isEmpty then 0 else SNDMORE) liveR liveW o.1 o.2 hflag
      have hbat := ioLoop_batch .snd liveR liveW o.1 s o.2 (by simpa [inBatch] using hb)
      rcases hres : send s (if fs.isEmpty then 0 else SNDMORE) liveR liveW o.1 o.2 with ⟨r1, s1, tr⟩
      have htr : tr.count Ev.notify = 0 := by
        rw [hres] at hio
        rw [← hio] at hbat
        exact hbat.1
      have hs1 : s1.in_send_multipart = true := by
        rw [hres] at hio
        rw [← hio] at hbat
        simpa [inBatch] using hbat.2
      simp only [send_frames]
      rw [hres]
      cases r1 with
      | none => exact ⟨htr, hs1⟩
      | some r =>
        cases r with
        | error e => exact ⟨htr, hs1⟩
        | ok u =>
          have IH := ih s1 os hs1
          simp [List.count_append, htr, IH.1, IH.2]

lemma recv_frames_batch (liveR liveW : Bool)
    (oracles : List (List LowResult × List WaitOutcome)) :
    ∀ (s : Socket), s.in_recv_multipart = true →
      (recv_frames liveR liveW s oracles).2.2.count Ev.notify = 0 ∧
      (recv_frames liveR liveW s oracles).2.1.in_recv_multipart = true := by
  induction oracles with
  | nil =>
    intro s hb
    simp [recv_frames, hb]
  | cons o os ih =>
    intro s hb
    have hio := recv_eq_ioLoop s 0 liveR liveW o.1 o.2 (by simp [NOBLOCK])
    have hbat := ioLoop_batch .rcv liveR liveW o.1 s o.2 (by simpa [inBatch] using hb)
    rcases hres : recv s 0 liveR liveW o.1 o.2 with ⟨r1, s1, tr⟩
    have htr : tr.count Ev.notify = 0 := by
      rw [hres] at hio
      rw [← hio] at hbat
      exact hbat.1
    have hs1 : s1.in_recv_multipart = true := by
      rw [hres] at hio
      rw [← hio] at hbat
      simpa [inBatch] using hbat.2
    simp only [recv_frames]
    rw [hres]
    cases r1 with
    | none => exact ⟨htr, hs1⟩
    | some r =>
      cases r with
      | error e => exact ⟨htr, hs1⟩
      | ok m =>
        have IH := ih s1 hs1
        rcases hrec : recv_frames liveR liveW s1 os with ⟨r2, s2, tr2⟩
        rw [hrec] at IH
        simp only at IH
        dsimp only
        rw [hrec]
        cases r2 with
        | none => simp [List.count_append, htr, IH.1, IH.2]
        | some r2v =>
          cases r2v with
          | error e2 => simp [List.count_append, htr, IH.1, IH.2]
          | ok ms => simp [List.count_append, htr, IH.1, IH.2]

lemma send_no_watchdog_timeout (s : Socket) (flags : Nat) (liveR liveW : Bool)
    (attempts : List LowResult) (waits : List WaitOutcome)
    (hw : ∀ w ∈ waits, w ≠ WaitOutcome.foreignTimeout) :
    ∀ r, (send s flags liveR liveW attempts waits).1 = some r →
      r ≠ Except.error Err.timeout := by
  by_cases hf : flags &&& NOBLOCK = 0
  · rw [send_eq_ioLoop s flags liveR liveW attempts waits hf]
    exact ioLoop_no_watchdog_timeout .snd liveR liveW attempts s waits hw
  · intro r hr
    cases attempts with
    | nil => simp [send, hf] at hr
    | cons a rest =>
      cases a with
      | ok m =>
        simp [send, hf, notifyUnlessBatch] at hr
        rw [← hr]
        intro hcon
        cases hcon
      | err e =>
        simp [send, hf, notifyUnlessBatch] at hr
        rw [← hr]
        intro hcon
        cases hcon

lemma recv_no_watchdog_timeout (s : Socket) (flags : Nat) (liveR liveW : Bool)
    (attempts : List LowResult) (waits : List WaitOutcome)
    (hw : ∀ w ∈ waits, w ≠ WaitOutcome.foreignTimeout) :
    ∀ r, (recv s flags liveR liveW attempts waits).1 = some r →
      r ≠ Except.error Err.timeout := by
  by_cases hf : flags &&& NOBLOCK = 0
  · rw [recv_eq_ioLoop s flags liveR liveW attempts waits hf]
    exact ioLoop_no_watchdog_timeout .rcv liveR liveW attempts s waits hw
  · intro r hr
    cases attempts with
    | nil => simp [recv, hf] at hr
    | cons a rest =>
      cases a with
      | ok m =>
        simp [recv, hf, notifyUnlessBatch] at hr
        rw [← hr]
        intro hcon
        cases hcon
      | err e =>
        simp [recv, hf, notifyUnlessBatch] at hr
        rw [← hr]
        intro hcon
        cases hcon

lemma notifyUnlessBatch_trace (d : Dir) (s : Socket) (liveR liveW : Bool) :
    (notifyUnlessBatch d s liveR liveW).2 = [] ∨
    (notifyUnlessBatch d s liveR liveW).2 = [Ev.notify] := by
  unfold notifyUnlessBatch
  split
  · exact Or.inl rfl
  · exact Or.inr rfl

/-- C1: for every non-batched send or receive call without the non-blocking
flag, the resync notification (`__state_changed`) fires exactly once per
logical call, at completion — on the success exit and on the fatal
(non-EAGAIN) error exit — and never on an internal would-block retry
iteration: the notification count is 1 exactly when the call completed at an
attempt exit (0 otherwise), and when it fires it is the last event of the
call's trace. -/
theorem C1_blocking_call_notifies_once_at_completion :
    ∀ (s : Socket) (flags : Nat) (liveR liveW : Bool)
      (attempts : List LowResult) (waits : List WaitOutcome),
      flags &&& NOBLOCK = 0 →
      (s.in_send_multipart = false →
        ((send s flags liveR liveW attempts waits).2.2.count Ev.notify
            = if attemptExit (send s flags liveR liveW attempts waits).1 then 1 else 0) ∧
        (attemptExit (send s flags liveR liveW attempts waits).1 = true →
            (send s flags liveR liveW attempts waits).2.2.getLast? = some Ev.notify)) ∧
      (s.in_recv_multipart = false →
        ((recv s flags liveR liveW attempts waits).2.2.count Ev.notify
            = if attemptExit (recv s flags liveR liveW attempts waits).1 then 1 else 0) ∧
        (attemptExit (recv s flags liveR liveW attempts waits).1 = true →
            (recv s flags liveR liveW attempts waits).2.2.getLast? = some Ev.notify)) := by
  intro s flags liveR liveW attempts waits hf
  rw [send_eq_ioLoop s flags liveR liveW attempts waits hf,
      recv_eq_ioLoop s flags liveR liveW attempts waits hf]
  exact ⟨fun hb => ioLoop_notify .snd liveR liveW attempts s waits (by simpa [inBatch] using hb),
         fun hb => ioLoop_notify .rcv liveR liveW attempts s waits (by simpa [inBatch] using hb)⟩

/-- Concrete run of C1: a send that sees one would-block then succeeds
notifies once, at the end; a recv that fails fatally (errno 95) notifies once,
at the end. -/
theorem C1_witness :
    (send readySock 0 false false [LowResult.err 11, LowResult.ok 7]
        [WaitOutcome.signaled]).2.2.count Ev.notify = 1 ∧
    (send readySock 0 false false [LowResult.err 11, LowResult.ok 7]
        [WaitOutcome.signaled]).2.2.getLast? = some Ev.notify ∧
    (recv readySock 0 false false [LowResult.err 95] []).2.2.count Ev.notify = 1 ∧
    (recv readySock 0 false false [LowResult.err 95] []).2.2.getLast? = some Ev.notify := by
  have hs := (C1_blocking_call_notifies_once_at_completion readySock 0 false false
      [LowResult.err 11, LowResult.ok 7] [WaitOutcome.signaled] (by decide)).1 (by decide)
  have hr := (C1_blocking_call_notifies_once_at_completion readySock 0 false false
      [LowResult.err 95] [] (by decide)).2 (by decide)
  exact ⟨hs.1.trans (by decide), hs.2 (by decide), hr.1.trans (by decide), hr.2 (by decide)⟩

/-- C2 counterexample: the readiness-watch edge callback registered in
`__setup_events` is `__readable_detected`, which signals the readable gate
unconditionally — here on a non-closed socket whose live read/write bits are
both false, where the claimed behaviour (that of `__state_changed`, embodied
in `state_changed`) would signal no gate at all. -/
theorem C2_counterexample :
    unreadySock.closed = false ∧
    unreadySock.readable = false ∧
    (edge_callback unreadySock).readable = true ∧
    (state_changed unreadySock false false).readable = false := by
  decide

/-- C2 (amended): on each invocation of the readiness-watch edge callback
(`__readable_detected`): if the socket is already closed it performs teardown
and returns with no further signaling; otherwise it unconditionally signals
the readable gate only (never the writable gate).  The select-based exact
signaling the claim describes is performed by the resync routine
`__state_changed` — invoked at call completion, not registered as the watch
callback — which also tears down when closed and otherwise signals exactly
those gates whose live bit is currently true. -/
theorem C2_edge_callback_and_state_changed :
    ∀ (s : Socket) (liveR liveW : Bool),
      (s.closed = true →
        edge_callback s = cleanup_events s ∧
        state_changed s liveR liveW = cleanup_events s) ∧
      (s.closed = false →
        (edge_callback s).readable = true ∧
        (edge_callback s).writable = s.writable ∧
        (state_changed s liveR liveW).readable = (s.readable || liveR) ∧
        (state_changed s liveR liveW).writable = (s.writable || liveW) ∧
        (state_changed s liveR liveW).state_event = s.state_event) := by
  intro s liveR liveW
  constructor
  · intro h
    simp [edge_callback, readable_detected, state_changed, h]
  · intro h
    refine ⟨?_, ?_, ?_, ?_, ?_⟩ <;>
      simp [edge_callback, readable_detected, state_changed, h] <;>
      cases liveR <;> cases liveW <;> simp

/-- Concrete instances of the amended C2: teardown on a closed socket, and
the gate updates on an open one. -/
theorem C2_witness :
    (edge_callback closedSock = cleanup_events closedSock ∧
     state_changed closedSock true false = cleanup_events closedSock) ∧
    ((edge_callback unreadySock).readable = true ∧
     (edge_callback unreadySock).writable = unreadySock.writable ∧
     (state_changed unreadySock true false).readable = (unreadySock.readable || true) ∧
     (state_changed unreadySock true false).writable = (unreadySock.writable || false) ∧
     (state_changed unreadySock true false).state_event = unreadySock.state_event) :=
  ⟨(C2_edge_callback_and_state_changed closedSock true false).1 rfl,
   (C2_edge_callback_and_state_changed unreadySock true false).2 rfl⟩

/-- C3: every multipart send or receive call issues exactly one resync
notification, after the whole batch (it is the last event of the trace),
whether the batch succeeds or fails partway; the per-frame inner calls issue
none, whatever the frames, retries or attempts inside the batch. -/
theorem C3_multipart_notifies_exactly_once :
    ∀ (s : Socket) (liveR liveW : Bool) (frames : List Nat)
      (oracles roracles : List (List LowResult × List WaitOutcome)),
      ((send_multipart s liveR liveW frames oracles).2.2.count Ev.notify = 1 ∧
       (send_multipart s liveR liveW frames oracles).2.2.getLast? = some Ev.notify) ∧
      ((recv_multipart s liveR liveW roracles).2.2.count Ev.notify = 1 ∧
       (recv_multipart s liveR liveW roracles).2.2.getLast? = some Ev.notify) := by
  intro s liveR liveW frames oracles roracles
  have hs := send_frames_batch liveR liveW frames { s with in_send_multipart := true } oracles rfl
  have hr := recv_frames_batch liveR liveW roracles { s with in_recv_multipart := true } rfl
  refine ⟨⟨?_, ?_⟩, ?_, ?_⟩
  · simp [send_multipart, List.count_append, hs.1]
  · simp [send_multipart, List.getLast?_concat]
  · simp [recv_multipart, List.count_append, hr.1]
  · simp [recv_multipart, List.getLast?_concat]

/-- C4: at most one greenlet can wait per direction: entering `_wait_write`
(resp. `_wait_read`) while the corresponding gate is not ready — i.e. another
greenlet is already waiting on it — fails fast with the assertion error and
leaves the state unchanged (in particular the gate is not reset). -/
theorem C4_single_waiter_assert :
    ∀ (s : Socket) (w : WaitOutcome),
      (s.writable = false → _wait_write s w = (Except.error Err.assertion, s)) ∧
      (s.readable = false → _wait_read s w = (Except.error Err.assertion, s)) := by
  intro s w
  constructor <;> intro h <;>
    simp [_wait_write, _wait_read, wait_event, gateReady, h]

/-- Concrete instance of C4 on a socket with both gates already reset. -/
theorem C4_witness :
    _wait_write unreadySock WaitOutcome.signaled = (Except.error Err.assertion, unreadySock) ∧
    _wait_read unreadySock WaitOutcome.signaled = (Except.error Err.assertion, unreadySock) :=
  ⟨(C4_single_waiter_assert unreadySock WaitOutcome.signaled).1 rfl,
   (C4_single_waiter_assert unreadySock WaitOutcome.signaled).2 rfl⟩

/-- C5: after a gate wait that actually began (the single-waiter assert
passed) completes — by signal, by watchdog expiry, or by a foreign exception
propagating out — the corresponding gate is reopened by the cleanup step, for
every possible wait outcome. -/
theorem C5_gate_reopened_after_wait :
    ∀ (s : Socket) (w : WaitOutcome),
      (s.writable = true → ((_wait_write s w).2).writable = true) ∧
      (s.readable = true → ((_wait_read s w).2).readable = true) := by
  intro s w
  constructor <;> intro h <;>
    simp [_wait_write, _wait_read, wait_event, gateReady, h, setGate] <;>
    cases w <;> simp [setGate]

/-- Concrete instances of C5: the gate is reopened after a watchdog expiry
and after a foreign-timeout exception. -/
theorem C5_witness :
    ((_wait_write readySock WaitOutcome.ownTimeout).2).writable = true ∧
    ((_wait_read readySock WaitOutcome.foreignTimeout).2).readable = true :=
  ⟨(C5_gate_reopened_after_wait readySock WaitOutcome.ownTimeout).1 rfl,
   (C5_gate_reopened_after_wait readySock WaitOutcome.foreignTimeout).2 rfl⟩

/-- C6: expiry of the watchdog bound during a gate wait never surfaces to the
caller: the watchdog's own timeout returns normally from `_wait_write` /
`_wait_read` (the gate is treated as signaled and the loop retries), and a
blocking send/recv whose waits raise no foreign timeout never completes with
the timeout error — it returns a message or raises a `ZMQError`. -/
theorem C6_watchdog_timeout_never_surfaces :
    ∀ (s : Socket) (flags : Nat) (liveR liveW : Bool)
      (attempts : List LowResult) (waits : List WaitOutcome),
      (s.writable = true → (_wait_write s WaitOutcome.ownTimeout).1 = Except.ok ()) ∧
      (s.readable = true → (_wait_read s WaitOutcome.ownTimeout).1 = Except.ok ()) ∧
      ((∀ w ∈ waits, w ≠ WaitOutcome.foreignTimeout) →
        (∀ r, (send s flags liveR liveW attempts waits).1 = some r →
            r ≠ Except.error Err.timeout) ∧
        (∀ r, (recv s flags liveR liveW attempts waits).1 = some r →
            r ≠ Except.error Err.timeout)) := by
  intro s flags liveR liveW attempts waits
  refine ⟨?_, ?_, fun hw =>
    ⟨send_no_watchdog_timeout s flags liveR liveW attempts waits hw,
     recv_no_watchdog_timeout s flags liveR liveW attempts waits hw⟩⟩
  · intro h
    simp [_wait_write, wait_event, gateReady, h]
  · intro h
    simp [_wait_read, wait_event, gateReady, h]

/-- Concrete instance of C6: a watchdog expiry returns normally, and a send
whose wait expired (then succeeded) completes with the message, not a
timeout. -/
theorem C6_witness :
    (_wait_write readySock WaitOutcome.ownTimeout).1 = Except.ok () ∧
    (_wait_read readySock WaitOutcome.ownTimeout).1 = Except.ok () ∧
    (Except.ok 5 : Except Err Nat) ≠ Except.error Err.timeout := by
  have h := C6_watchdog_timeout_never_surfaces readySock 0 false false
      [LowResult.err 11, LowResult.ok 5] [WaitOutcome.ownTimeout]
  exact ⟨h.1 rfl, h.2.1 rfl, (h.2.2 (by decide)).1 (Except.ok 5) rfl⟩

/-- C7: a send or receive call carrying the explicit non-blocking flag makes
exactly one underlying attempt and never enters a gate wait, whatever the
socket state; a would-block `EAGAIN` (like any `ZMQError`) surfaces to the
caller as the error instead of being retried. -/
theorem C7_noblock_single_attempt_never_waits :
    ∀ (s : Socket) (flags : Nat) (liveR liveW : Bool) (a : LowResult)
      (rest : List LowResult) (waits : List WaitOutcome),
      flags &&& NOBLOCK ≠ 0 →
      ((send s flags liveR liveW (a :: rest) waits).2.2.count Ev.attemptSend = 1 ∧
       (send s flags liveR liveW (a :: rest) waits).2.2.count Ev.gateWaitW = 0 ∧
       (∀ e, a = LowResult.err e →
          (send s flags liveR liveW (a :: rest) waits).1
            = some (Except.error (Err.zmq e))) ∧
       (∀ m, a = LowResult.ok m →
          (send s flags liveR liveW (a :: rest) waits).1 = some (Except.ok m))) ∧
      ((recv s flags liveR liveW (a :: rest) waits).2.2.count Ev.attemptRecv = 1 ∧
       (recv s flags liveR liveW (a :: rest) waits).2.2.count Ev.gateWaitR = 0 ∧
       (∀ e, a = LowResult.err e →
          (recv s flags liveR liveW (a :: rest) waits).1
            = some (Except.error (Err.zmq e))) ∧
       (∀ m, a = LowResult.ok m →
          (recv s flags liveR liveW (a :: rest) waits).1 = some (Except.ok m))) := by
  intro s flags liveR liveW a rest waits hf
  rcases notifyUnlessBatch_trace .snd s liveR liveW with h2 | h2 <;>
    rcases notifyUnlessBatch_trace .rcv s liveR liveW with h3 | h3 <;>
    cases a <;>
    refine ⟨⟨?_, ?_, ?_, ?_⟩, ?_, ?_, ?_, ?_⟩ <;>
    simp [send, recv, hf, h2, h3, List.count_cons]

/-- Concrete instances of C7: one attempt, no gate wait, EAGAIN surfaced on
send; a successful single attempt on recv. -/
theorem C7_witness :
    (send readySock 1 false false [LowResult.err 11] []).2.2.count Ev.attemptSend = 1 ∧
    (send readySock 1 false false [LowResult.err 11] []).2.2.count Ev.gateWaitW = 0 ∧
    (send readySock 1 false false [LowResult.err 11] []).1
      = some (Except.error (Err.zmq 11)) ∧
    (recv readySock 1 false false [LowResult.ok 3] []).1 = some (Except.ok 3) := by
  have h1 := C7_noblock_single_attempt_never_waits readySock 1 false false
      (LowResult.err 11) [] [] (by decide)
  have h2 := C7_noblock_single_attempt_never_waits readySock 1 false false
      (LowResult.ok 3) [] [] (by decide)
  exact ⟨h1.1.1, h1.1.2.1, h1.1.2.2.1 11 rfl, h2.2.2.2.2 3 rfl⟩

/-- C8: `close()` marks the socket closed, tears down the readiness watch and
force-signals both gates, and running it again changes nothing (close is
idempotent). -/
theorem C8_close_teardown_idempotent :
    ∀ s : Socket,
      (close s).closed = true ∧
      (close s).state_event = false ∧
      (close s).readable = true ∧
      (close s).writable = true ∧
      close (close s) = close s := by
  intro s
  exact ⟨rfl, rfl, rfl, rfl, rfl⟩

/-- C9: setting `SUBSCRIBE`/`UNSUBSCRIBE` triggers exactly one resync
notification, after the option is applied; reading `EVENTS` triggers exactly
one, after the value is read; getting or setting any other option triggers
none (the trace then ends at the underlying option access itself). -/
theorem C9_option_resync_notifications :
    ∀ (s : Socket) (hasTimeo : Bool) (store : Nat → Int) (opt : Nat) (val : Int)
      (liveR liveW : Bool),
      ((set s hasTimeo opt val liveR liveW).2.count Ev.notify
          = if opt = SUBSCRIBE ∨ opt = UNSUBSCRIBE then 1 else 0) ∧
      ((set s hasTimeo opt val liveR liveW).2.getLast?
          = if opt = SUBSCRIBE ∨ opt = UNSUBSCRIBE then some Ev.notify
            else some (Ev.applyOpt opt val)) ∧
      ((get s hasTimeo store opt liveR liveW).2.2.count Ev.notify
          = if opt = EVENTS then 1 else 0) ∧
      ((get s hasTimeo store opt liveR liveW).2.2.getLast?
          = if opt = EVENTS then some Ev.notify else some (Ev.readOpt opt)) := by
  intro s hasTimeo store opt val liveR liveW
  by_cases hsub : opt = SUBSCRIBE ∨ opt = UNSUBSCRIBE
  · have hval : opt = 6 ∨ opt = 7 := by simpa [SUBSCRIBE, UNSUBSCRIBE] using hsub
    rcases hval with rfl | rfl <;> cases hasTimeo <;>
      simp [set, get, TIMEOS, SUBSCRIBE, UNSUBSCRIBE, EVENTS, RCVTIMEO, SNDTIMEO,
        List.count_cons]
  · by_cases hev : opt = EVENTS
    · subst hev
      cases hasTimeo <;>
        simp [set, get, TIMEOS, SUBSCRIBE, UNSUBSCRIBE, EVENTS, RCVTIMEO, SNDTIMEO,
          List.count_cons]
    · by_cases htm : opt ∈ TIMEOS hasTimeo <;>
        simp [set, get, hsub, hev, htm, List.count_cons]

/-- C10: with the binding defining the TIMEO options, every get or set of
`RCVTIMEO`/`SNDTIMEO` emits the no-effect `UserWarning` exactly once and the
call still proceeds: get returns the underlying socket's option value and set
forwards the value to the underlying socket. -/
theorem C10_timeo_warning_call_proceeds :
    ∀ (s : Socket) (store : Nat → Int) (val : Int) (liveR liveW : Bool) (opt : Nat),
      opt ∈ TIMEOS true →
      ((get s true store opt liveR liveW).2.2.count Ev.warnTimeo = 1 ∧
       (get s true store opt liveR liveW).1 = store opt ∧
       Ev.readOpt opt ∈ (get s true store opt liveR liveW).2.2) ∧
      ((set s true opt val liveR liveW).2.count Ev.warnTimeo = 1 ∧
       Ev.applyOpt opt val ∈ (set s true opt val liveR liveW).2) := by
  intro s store val liveR liveW opt h
  have h27 : opt = RCVTIMEO ∨ opt = SNDTIMEO := by simpa [TIMEOS] using h
  rcases h27 with rfl | rfl <;>
    refine ⟨⟨?_, ?_, ?_⟩, ?_, ?_⟩ <;>
    simp [get, set, TIMEOS, RCVTIMEO, SNDTIMEO, EVENTS, SUBSCRIBE, UNSUBSCRIBE,
      List.count_cons]

/-- Concrete instance of C10 at `RCVTIMEO` with a constant option store. -/
theorem C10_witness :
    ((get readySock true constStore 27 false false).2.2.count Ev.warnTimeo = 1 ∧
     (get readySock true constStore 27 false false).1 = constStore 27 ∧
     Ev.readOpt 27 ∈ (get readySock true constStore 27 false false).2.2) ∧
    ((set readySock true 27 9 false false).2.count Ev.warnTimeo = 1 ∧
     Ev.applyOpt 27 9 ∈ (set readySock true 27 9 false false).2) :=
  C10_timeo_warning_call_proceeds readySock constStore 9 false false 27 (by decide)

end GreenZmq
